import Mathlib

/-! nodepp-sqlite: connection handle life cycle and statement stepper.

A shallow embedding of `include/sqlite/sqlite.h`.

* The handle (`sqlite_t`, a shared pointer to a `NODE`) is a record holding the
  native connection pointer and the `int` state bitmask; the bitmask is a
  natural number and the flag operations are the bit operations of the source.
* The native engine is not part of the repository.  Every call the source makes
  to it is recorded as an event (`Ev`), and what the engine answers is an input
  of the model: a prepared statement carries the column names and the list of
  answers that successive `sqlite3_step` calls give.
* The generator `_sqlite_::cb` is a record with the fields of the source plus
  the resume label `_state_`; `coEmit` is one resumption of it.
* The scheduler (`process::add`) is a list of registered tasks; a tick resumes
  one task, and a task that returned `-1` is never resumed again.
-/

namespace nodepp

/-! ## Native status codes (values of `sqlite3.h`) -/

/-- Status `SQLITE_OK`. -/
def SQLITE_OK : Int := 0

/-- Status `SQLITE_BUSY`. -/
def SQLITE_BUSY : Int := 5

/-- Status `SQLITE_MISUSE`. -/
def SQLITE_MISUSE : Int := 21

/-- Status `SQLITE_ROW`. -/
def SQLITE_ROW : Int := 100

/-- Status `SQLITE_DONE`. -/
def SQLITE_DONE : Int := 101

/-! ## `sqlite_t::STATE` and `sqlite_t::NODE` -/

/-- Flag `STATE::SQL_STATE_UNKNOWN`. -/
def SQL_STATE_UNKNOWN : Nat := 0b00000000

/-- Flag `STATE::SQL_STATE_OPEN`. -/
def SQL_STATE_OPEN : Nat := 0b00000001

/-- Flag `STATE::SQL_STATE_USED`. -/
def SQL_STATE_USED : Nat := 0b10000000

/-- Flag `STATE::SQL_STATE_CLOSE`. -/
def SQL_STATE_CLOSE : Nat := 0b00000010

/-- The value `~STATE::SQL_STATE_USED` of a 32-bit `int`, as a bit pattern. -/
def NOT_SQL_STATE_USED : Nat := 0xFFFFFFFF ^^^ SQL_STATE_USED

/-- The record `sqlite_t::NODE`: the native connection pointer (`none` is
`nullptr`) and the state bitmask. -/
structure NODE where
  fd : Option Nat := none
  state : Nat := 0
deriving DecidableEq, Repr

/-- One result row, `map_t<string_t,string_t>`: keys in insertion order. -/
abbrev sql_item_t := List (String × String)

/-- An `except_t`, kept as the list of the arguments it was built from. -/
structure except_t where
  args : List String
deriving DecidableEq, Repr

/-- Everything the code does to the world outside the handle: calls of native
engine primitives, changes of the USED flag made by a stepper, consumer
invocations, scheduler registration, and the settling of a future. -/
inductive Ev where
  | sqlite3_prepare_v2 (cmd : String)
  | sqlite3_errmsg
  | sqlite3_column_count
  | sqlite3_column_name (x : Nat)
  | sqlite3_step
  | sqlite3_column_text (x : Nat)
  | sqlite3_finalize
  | sqlite3_close (fd : Nat)
  | use
  | release
  | cb (object : sql_item_t)
  | process_add
  | res (rows : List sql_item_t)
  | rej (e : except_t)
deriving DecidableEq, Repr

/-- Query `sqlite_t::is_closed`. -/
def is_closed (obj : NODE) : Bool := (obj.state &&& SQL_STATE_CLOSE) != 0

/-- Query `sqlite_t::is_used`. -/
def is_used (obj : NODE) : Bool := (obj.state &&& SQL_STATE_USED) != 0

/-- Operation `sqlite_t::close`: `obj->state = STATE::SQL_STATE_CLOSE`. -/
def close (obj : NODE) : NODE := { obj with state := SQL_STATE_CLOSE }

/-- Operation `sqlite_t::use`: `obj->state |= STATE::SQL_STATE_USED`. -/
def use (obj : NODE) : NODE := { obj with state := obj.state ||| SQL_STATE_USED }

/-- Operation `sqlite_t::release`: `obj->state &= ~STATE::SQL_STATE_USED`. -/
def release (obj : NODE) : NODE := { obj with state := obj.state &&& NOT_SQL_STATE_USED }

/-- Operation `sqlite_t::free`, with the native calls it makes. -/
def free (obj : NODE) : List Ev × NODE :=
  match obj.fd with
  | none => ([], obj)
  | some fd =>
    if is_closed obj then ([], obj)
    else ([Ev.sqlite3_close fd], close obj)

/-- The destructor `sqlite_t::~sqlite_t`, run by an owner while the shared
pointer has `count` owners. -/
def dtor (count : Nat) (obj : NODE) : List Ev × NODE :=
  if count > 1 then ([], obj) else free obj

/-- The default constructor `sqlite_t()`. -/
def sqlite_t_default : NODE := { fd := none, state := SQL_STATE_CLOSE }

/-- The constructor `sqlite_t(path)`, given what `sqlite3_open` answered: its
status, the pointer it stored and the message of `sqlite3_errmsg`. -/
def sqlite_t_open (rc : Int) (fd : Option Nat) (errmsg : String) : Except except_t NODE :=
  if rc ≠ 0 then Except.error ⟨["SQL Error: ", errmsg]⟩
  else Except.ok { fd := fd, state := SQL_STATE_OPEN }

/-- A public state operation applied to a handle. -/
inductive Op where
  | close
  | use
  | release
  | free
  | dtor (count : Nat)
deriving DecidableEq, Repr

/-- The effect of one operation: the native calls made and the new record. -/
def Op.apply : Op → NODE → List Ev × NODE
  | Op.close, obj => ([], nodepp.close obj)
  | Op.use, obj => ([], nodepp.use obj)
  | Op.release, obj => ([], nodepp.release obj)
  | Op.free, obj => nodepp.free obj
  | Op.dtor count, obj => nodepp.dtor count obj

/-- A sequence of operations, left to right, with all native calls made. -/
def applyOps : List Op → NODE → List Ev × NODE
  | [], obj => ([], obj)
  | o :: ops, obj =>
    let r := o.apply obj
    let rest := applyOps ops r.2
    (r.1 ++ rest.1, rest.2)

/-- Recognises a call of `sqlite3_close`. -/
def Ev.isClose : Ev → Bool
  | Ev.sqlite3_close _ => true
  | _ => false

/-- Number of `sqlite3_close` calls in a trace. -/
def nativeCloses (evs : List Ev) : Nat := evs.countP Ev.isClose

/-! ## The native statement

The engine is outside the repository.  A prepared statement is given by its
column names and by what the engine answers to successive `sqlite3_step`
calls: a status code and the column texts that are current afterwards. -/

/-- A prepared statement `sqlite3_stmt`: column names, the answers still to
come from `sqlite3_step`, and the texts of the current row. -/
structure sqlite3_stmt where
  names : List String
  script : List (Int × List (Option String))
  row : List (Option String) := []
deriving DecidableEq, Repr

/-- Primitive `sqlite3_column_count`. -/
def sqlite3_column_count (ctx : sqlite3_stmt) : Nat := ctx.names.length

/-- Primitive `sqlite3_column_name`. -/
def sqlite3_column_name (ctx : sqlite3_stmt) (x : Nat) : String := ctx.names.getD x ""

/-- Primitive `sqlite3_column_text`; `none` is the null pointer. -/
def sqlite3_column_text (ctx : sqlite3_stmt) (x : Nat) : Option String := ctx.row.getD x none

/-- Primitive `sqlite3_step`: the next scripted answer; a statement stepped
past the end of its script answers `SQLITE_MISUSE`. -/
def sqlite3_step (ctx : sqlite3_stmt) : Int × sqlite3_stmt :=
  match ctx.script with
  | [] => (SQLITE_MISUSE, { ctx with row := [] })
  | a :: rest => (a.1, { ctx with script := rest, row := a.2 })

/-! ## Containers -/

/-- Assignment `object[k] = v` of `map_t`: overwrite the entry of an existing
key, append a new entry otherwise. -/
def map_set : sql_item_t → String → String → sql_item_t
  | [], k, v => [(k, v)]
  | (k0, v0) :: rest, k, v =>
    if k0 = k then (k0, v) :: rest else (k0, v0) :: map_set rest k v

/-- A consumer `function_t<void,sql_item_t>` acting on a state of type `σ`;
`none` is the null function. -/
abbrev function_t (σ : Type) := Option (sql_item_t → σ → σ)

/-! ## The generator `_sqlite_::cb` -/

/-- The generator object: the resume label and the members of the source. -/
structure cb where
  _state_ : Nat := 0
  col : List String := []
  num_fields : Nat := 0
  x : Nat := 0
  err : Int := 0
deriving DecidableEq, Repr

/-- The loop of lines 42-43: push the name of every column onto `col`. -/
def column_names (ctx : sqlite3_stmt) (num_fields : Nat) (col : List String) : List String :=
  (List.range num_fields).foldl (fun c x => c ++ [sqlite3_column_name ctx x]) col

/-- The loop of lines 48-53: `object[col[x]] = y ? y : "NULL"` for every
column `x`, where `y` is the column text. -/
def row_object (col : List String) (num_fields : Nat) (text : Nat → Option String) : sql_item_t :=
  (List.range num_fields).foldl
    (fun object x => map_set object (col.getD x "")
      (match text x with
       | some y => y
       | none => "NULL"))
    []

/-- What one resumption of the generator leaves behind. -/
structure Out (σ : Type) where
  ret : Int
  gen : cb
  ctx : sqlite3_stmt
  self : NODE
  acc : σ
  evs : List Ev

/-- Modelled from the spec: the coroutine macros of the nodepp library
(`coBegin`, `coWait`, `coYield`, `coGoto`, `coEnd`, `coFinish`) are not in this
repository.  `coWait(c)` stores its own line as resume label and suspends while
`c` holds, testing `c` again when resumed; `coYield(n)` suspends once and
resumes after itself; `coGoto(n)` suspends and resumes at label `n`; `coEnd`
and `coFinish` reset the label and return `-1`.  Every suspension returns a
non-negative code, here `1`.

One resumption of `coEmit( ctx, cb, self )`.  Labels: `0` entry and `39` the
wait of line 39, `1` and `45` the yield and the wait of line 45, `2` the yield
of line 55; any other label falls through the `switch` to `coFinish`.  A null
consumer ends the run at line 40, so the row branch is never reached with it;
there the model records the step and the column reads and no invocation. -/
def coEmit {σ : Type} (g : cb) (ctx : sqlite3_stmt) (f : function_t σ) (self : NODE) (acc : σ) :
    Out σ :=
  if g._state_ = 0 ∨ g._state_ = 39 then
    if is_used self then
      { ret := 1, gen := { g with _state_ := 39 }, ctx := ctx, self := self, acc := acc, evs := [] }
    else
      match f with
      | none =>
        { ret := -1, gen := { g with _state_ := 0 }, ctx := ctx, self := release (use self),
          acc := acc, evs := [Ev.use, Ev.sqlite3_finalize, Ev.release] }
      | some _ =>
        let n := sqlite3_column_count ctx
        { ret := 1,
          gen := { g with _state_ := 1, num_fields := n, x := n, col := column_names ctx n g.col },
          ctx := ctx, self := use self, acc := acc,
          evs := [Ev.use, Ev.sqlite3_column_count] ++ (List.range n).map Ev.sqlite3_column_name }
  else if g._state_ = 1 ∨ g._state_ = 45 then
    let r := sqlite3_step ctx
    if r.1 = SQLITE_BUSY then
      { ret := 1, gen := { g with _state_ := 45, err := r.1 }, ctx := r.2, self := self, acc := acc,
        evs := [Ev.sqlite3_step] }
    else if r.1 ≠ SQLITE_ROW then
      { ret := 1, gen := { g with _state_ := 2, err := r.1 }, ctx := r.2, self := self, acc := acc,
        evs := [Ev.sqlite3_step] }
    else
      let object := row_object g.col g.num_fields (sqlite3_column_text r.2)
      let texts := (List.range g.num_fields).map Ev.sqlite3_column_text
      match f with
      | some fn =>
        { ret := 1, gen := { g with _state_ := 1, err := r.1, x := g.num_fields }, ctx := r.2,
          self := self, acc := fn object acc, evs := [Ev.sqlite3_step] ++ texts ++ [Ev.cb object] }
      | none =>
        { ret := 1, gen := { g with _state_ := 1, err := r.1, x := g.num_fields }, ctx := r.2,
          self := self, acc := acc, evs := [Ev.sqlite3_step] ++ texts }
  else if g._state_ = 2 then
    { ret := -1, gen := { g with _state_ := 0 }, ctx := ctx, self := release self, acc := acc,
      evs := [Ev.sqlite3_finalize, Ev.release] }
  else
    { ret := -1, gen := { g with _state_ := 0 }, ctx := ctx, self := self, acc := acc, evs := [] }

/-! ## The scheduler -/

/-- A unit registered with `process::add`: the generator, its statement, its
consumer with the consumer state, and, for `resolve`, how the accumulated rows
are read when the future is fulfilled.  `live` is false once the unit has
returned `-1` and was removed from the queue. -/
structure Task (σ : Type) where
  gen : cb
  ctx : sqlite3_stmt
  fn : function_t σ
  acc : σ
  fut : Option (σ → List sql_item_t)
  live : Bool

/-- One scheduler tick as seen from outside: which unit ran, what it did, and
what it returned to the scheduler. -/
structure Tick where
  who : Nat
  evs : List Ev
  ret : Int
deriving DecidableEq, Repr

/-- The handle shared by all units, the scheduler queue and the record of the
ticks so far. -/
structure Sys (σ : Type) where
  obj : NODE
  tasks : List (Task σ)
  log : List Tick

/-- What line 121 adds when the generator has returned `-1`: `res( arr.data() )`
for a unit registered by `resolve`, nothing for a unit registered by `emit`. -/
def futEvs {σ : Type} (fut : Option (σ → List sql_item_t)) (acc : σ) : List Ev :=
  match fut with
  | some data => [Ev.res (data acc)]
  | none => []

/-- The scheduler resumes unit `i`.  A unit registered by `emit` is the
generator itself; a unit registered by `resolve` is the lambda of lines
119-122, which fulfils the future when the generator returns `-1`. -/
def tickTask {σ : Type} (i : Nat) (s : Sys σ) : Sys σ :=
  match s.tasks[i]? with
  | none => s
  | some t =>
    if t.live then
      let o := coEmit t.gen t.ctx t.fn s.obj t.acc
      if 0 ≤ o.ret then
        { obj := o.self,
          tasks := s.tasks.set i { t with gen := o.gen, ctx := o.ctx, acc := o.acc },
          log := s.log ++ [{ who := i, evs := o.evs, ret := 1 }] }
      else
        { obj := o.self,
          tasks := s.tasks.set i { t with gen := o.gen, ctx := o.ctx, acc := o.acc, live := false },
          log := s.log ++ [{ who := i,
                             evs := o.evs ++ futEvs t.fut o.acc,
                             ret := -1 }] }
    else s

/-- A schedule: the units resumed, in order. -/
def run {σ : Type} : List Nat → Sys σ → Sys σ
  | [], s => s
  | i :: rest, s => run rest (tickTask i s)

/-- The unit is waiting in INIT: registered and not past the wait of line 39. -/
def Task.inInit {σ : Type} (t : Task σ) : Bool :=
  t.live && (t.gen._state_ == 0 || t.gen._state_ == 39)

/-- The unit is between acquiring USED (line 39) and releasing it (line 56). -/
def Task.holding {σ : Type} (t : Task σ) : Bool :=
  t.live && (t.gen._state_ == 1 || t.gen._state_ == 45 || t.gen._state_ == 2)

/-- All events of unit `i` in a log, in order. -/
def evsOf (i : Nat) (log : List Tick) : List Ev :=
  (log.filter (fun k => k.who == i)).flatMap Tick.evs

/-- All events of a log, in order. -/
def allEvs (log : List Tick) : List Ev := log.flatMap Tick.evs

/-! ## The façade: `emit`, `resolve`, `await` -/

/-- The native engine as the façade sees it: the answer of
`sqlite3_prepare_v2` (status and statement pointer, `none` being `NULL`) for a
text, and the message of `sqlite3_errmsg`. -/
structure Engine where
  prepare : String → Int × Option sqlite3_stmt
  errmsg : String

/-- Operation `sqlite_t::emit`: the returned optional error, the native and
scheduler calls made, and the system afterwards.  `acc` is the state the
callback works on. -/
def emit {σ : Type} (eng : Engine) (s : Sys σ) (cmd : String) (cb : function_t σ) (acc : σ) :
    Option except_t × List Ev × Sys σ :=
  if cmd.isEmpty || is_closed s.obj || s.obj.fd.isNone then
    (some ⟨["SQL Error: closed"]⟩, [], s)
  else
    let r := eng.prepare cmd
    if r.1 ≠ SQLITE_OK then
      (some ⟨["SQL Error: ", eng.errmsg]⟩, [Ev.sqlite3_prepare_v2 cmd, Ev.sqlite3_errmsg], s)
    else
      match r.2 with
      | none => (some ⟨["SQL Error: something went wrong"]⟩, [Ev.sqlite3_prepare_v2 cmd], s)
      | some ctx =>
        (none, [Ev.sqlite3_prepare_v2 cmd, Ev.process_add],
          { s with tasks := s.tasks ++
              [{ gen := {}, ctx := ctx, fn := cb, acc := acc, fut := none, live := true }] })

/-- The body of the promise built by `sqlite_t::resolve`: the calls made
(a rejection is the event `rej`) and the system afterwards.  The consumer is
the lambda of line 108, which pushes each row onto `arr`. -/
def resolve (eng : Engine) (s : Sys (List sql_item_t)) (cmd : String) :
    List Ev × Sys (List sql_item_t) :=
  if cmd.isEmpty || is_closed s.obj || s.obj.fd.isNone then
    ([Ev.rej ⟨["SQL Error: closed"]⟩], s)
  else
    let r := eng.prepare cmd
    if r.1 ≠ SQLITE_OK then
      ([Ev.sqlite3_prepare_v2 cmd, Ev.sqlite3_errmsg, Ev.rej ⟨["SQL Error: ", eng.errmsg]⟩], s)
    else
      match r.2 with
      | none =>
        ([Ev.sqlite3_prepare_v2 cmd, Ev.rej ⟨["SQL Error: something went wrong"]⟩], s)
      | some ctx =>
        ([Ev.sqlite3_prepare_v2 cmd, Ev.process_add],
          { s with tasks := s.tasks ++
              [{ gen := {}, ctx := ctx, fn := some (fun args arr => arr ++ [args]), acc := [],
                 fut := some (fun arr => arr), live := true }] })

/-- The record the source builds for a statement with these column names when
the current row has these texts. -/
def record (names : List String) (row : List (Option String)) : sql_item_t :=
  row_object names names.length (fun x => row.getD x none)

/-- The rows among scripted answers, as records, in order. -/
def rowsOf (names : List String) (answers : List (Int × List (Option String))) : List sql_item_t :=
  (answers.filter (fun a => a.1 = SQLITE_ROW)).map (fun a => record names a.2)

/-- What a tick does for one scripted answer that is busy or row. -/
def answerTick (names : List String) (a : Int × List (Option String)) : Tick :=
  if a.1 = SQLITE_BUSY then { who := 0, evs := [Ev.sqlite3_step], ret := 1 }
  else { who := 0,
         evs := [Ev.sqlite3_step] ++ (List.range names.length).map Ev.sqlite3_column_text
                ++ [Ev.cb (record names a.2)],
         ret := 1 }

/-- The tick that leaves INIT with a consumer: USED is taken and the column
names are read. -/
def setupTick (names : List String) : Tick :=
  { who := 0,
    evs := [Ev.use, Ev.sqlite3_column_count] ++ (List.range names.length).map Ev.sqlite3_column_name,
    ret := 1 }

/-- The last two ticks of a unit with a consumer: the step that gets the
terminal answer, and the tick that finalizes, releases and returns `-1`;
`tail` is what the registering lambda adds on completion. -/
def closingTicks (tail : List Ev) : List Tick :=
  [{ who := 0, evs := [Ev.sqlite3_step], ret := 1 },
   { who := 0, evs := [Ev.sqlite3_finalize, Ev.release] ++ tail, ret := -1 }]

/-- The only tick of a unit whose consumer is null, once USED is free. -/
def nullTick (tail : List Ev) : Tick :=
  { who := 0, evs := [Ev.use, Ev.sqlite3_finalize, Ev.release] ++ tail, ret := -1 }

/-- The record passed to the consumer, for a consumer invocation. -/
def Ev.cbArg : Ev → Option sql_item_t
  | Ev.cb object => some object
  | _ => none

/-- The consumer state after the rows among the answers were delivered in
order. -/
def deliver {σ : Type} (fn : sql_item_t → σ → σ) (names : List String)
    (answers : List (Int × List (Option String))) (acc : σ) : σ :=
  (rowsOf names answers).foldl (fun s r => fn r s) acc

/-- An open, unused handle on native connection 7, used for concrete runs. -/
def demoHandle : NODE := { fd := some 7, state := SQL_STATE_OPEN }

/-- The statement of `SELECT * FROM t` over the one row `(1,'a')` of a table
`t(id,v)`: one row answer, then `SQLITE_DONE`. -/
def demoStmt : sqlite3_stmt :=
  { names := ["id", "v"], script := [(SQLITE_ROW, [some "1", some "a"]), (SQLITE_DONE, [])] }

/-- An engine that prepares every text to `demoStmt`. -/
def demoEngine : Engine := { prepare := fun _ => (SQLITE_OK, some demoStmt), errmsg := "" }

/-- How often a trace takes USED, finalizes a statement and releases USED. -/
def tally (evs : List Ev) : Nat × Nat × Nat :=
  (evs.count Ev.use, evs.count Ev.sqlite3_finalize, evs.count Ev.release)

/-- The tally that goes with the place a unit is at: nothing while it waits
in INIT, USED taken while it holds the handle, all three once it is done. -/
def Task.due {σ : Type} (t : Task σ) : Nat × Nat × Nat :=
  if t.live then (if t.holding then (1, 0, 0) else (0, 0, 0)) else (1, 1, 1)

/-- The trace performs column setup or a native step. -/
def works (evs : List Ev) : Bool :=
  evs.contains Ev.sqlite3_column_count || evs.contains Ev.sqlite3_step

/-- The invariant of the scheduler over one handle: every registered unit is
at a label of the generator; USED is set exactly when some unit holds the
handle; at most one unit holds it; and the events of every unit so far are
those due at its place. -/
structure Inv {σ : Type} (s : Sys σ) : Prop where
  label : ∀ (i : Nat) (t : Task σ), s.tasks[i]? = some t → t.live = true → t.inInit = true ∨ t.holding = true
  used : ∀ (i : Nat) (t : Task σ), s.tasks[i]? = some t → t.holding = true → is_used s.obj = true
  held : is_used s.obj = true → ∃ (i : Nat) (t : Task σ), s.tasks[i]? = some t ∧ t.holding = true
  single : ∀ (i j : Nat) (ti tj : Task σ), s.tasks[i]? = some ti → s.tasks[j]? = some tj →
    ti.holding = true → tj.holding = true → i = j
  events : ∀ (i : Nat) (t : Task σ), s.tasks[i]? = some t → tally (evsOf i s.log) = t.due

/-- Two units registered by `emit` with a counting callback on the unused demo
handle, each over its own statement. -/
def twoUnits : Sys Nat :=
  { obj := demoHandle,
    tasks := [{ gen := {}, ctx := demoStmt, fn := some (fun _ c => c + 1), acc := 0, fut := none,
                live := true },
              { gen := {}, ctx := demoStmt, fn := some (fun _ c => c + 1), acc := 0, fut := none,
                live := true }],
    log := [] }

/-- An outside call of `close()` on the shared handle. -/
def closeHandle {σ : Type} (s : Sys σ) : Sys σ := { s with obj := close s.obj }

/-- Unit 0 is resumed once (it takes USED and sets up its columns), then
`close()` is called, then unit 1 is resumed once. -/
def closeWhileRunning : Sys Nat := run [1] (closeHandle (run [0] twoUnits))

theorem is_used_eq_testBit (obj : NODE) : is_used obj = obj.state.testBit 7 := by
  have h : obj.state &&& SQL_STATE_USED = (obj.state.testBit 7).toNat * 2 ^ 7 :=
    Nat.and_two_pow obj.state 7
  unfold is_used
  rw [h]
  cases obj.state.testBit 7 <;> decide

theorem is_closed_eq_testBit (obj : NODE) : is_closed obj = obj.state.testBit 1 := by
  have h : obj.state &&& SQL_STATE_CLOSE = (obj.state.testBit 1).toNat * 2 ^ 1 :=
    Nat.and_two_pow obj.state 1
  unfold is_closed
  rw [h]
  cases obj.state.testBit 1 <;> decide

theorem is_used_use (obj : NODE) : is_used (use obj) = true := by
  rw [is_used_eq_testBit]
  have h : SQL_STATE_USED.testBit 7 = true := by decide
  simp [use, Nat.testBit_or, h]

theorem is_used_release (obj : NODE) : is_used (release obj) = false := by
  rw [is_used_eq_testBit]
  have h : NOT_SQL_STATE_USED.testBit 7 = false := by decide
  simp [release, Nat.testBit_and, h]

theorem is_closed_use (obj : NODE) : is_closed (use obj) = is_closed obj := by
  rw [is_closed_eq_testBit, is_closed_eq_testBit]
  have h : SQL_STATE_USED.testBit 1 = false := by decide
  simp [use, Nat.testBit_or, h]

theorem is_closed_release (obj : NODE) : is_closed (release obj) = is_closed obj := by
  rw [is_closed_eq_testBit, is_closed_eq_testBit]
  have h : NOT_SQL_STATE_USED.testBit 1 = true := by decide
  simp [release, Nat.testBit_and, h]

theorem is_closed_close (obj : NODE) : is_closed (close obj) = true := by
  simp [is_closed, close, SQL_STATE_CLOSE]

theorem is_used_close (obj : NODE) : is_used (close obj) = false := by
  show ((SQL_STATE_CLOSE &&& SQL_STATE_USED) != 0) = false
  decide

/-! ## Life cycle of the native connection -/

theorem free_of_closed (obj : NODE) (h : is_closed obj = true) : free obj = ([], obj) := by
  unfold free
  cases obj.fd <;> simp [h]

theorem free_of_null (obj : NODE) (h : obj.fd = none) : free obj = ([], obj) := by
  unfold free
  simp [h]

theorem free_closes_le_one (obj : NODE) : nativeCloses (free obj).1 ≤ 1 := by
  unfold free
  cases obj.fd with
  | none => simp [nativeCloses]
  | some fd => by_cases h : is_closed obj = true <;> simp [h, nativeCloses, Ev.isClose]

theorem free_closed_after (obj : NODE) (h : nativeCloses (free obj).1 ≠ 0) :
    is_closed (free obj).2 = true := by
  unfold free at h ⊢
  cases hfd : obj.fd with
  | none => simp [hfd, nativeCloses] at h
  | some fd =>
    by_cases hc : is_closed obj = true
    · simp [hfd, hc, nativeCloses] at h
    · simp [hc, is_closed_close]

theorem apply_keeps_closed (o : Op) (obj : NODE) (h : is_closed obj = true) :
    (o.apply obj).1 = [] ∧ is_closed (o.apply obj).2 = true := by
  cases o with
  | close => simp [Op.apply, is_closed_close]
  | use => simp [Op.apply, is_closed_use, h]
  | release => simp [Op.apply, is_closed_release, h]
  | free => simp [Op.apply, free_of_closed obj h, h]
  | dtor count =>
    by_cases hc : count > 1
    · simp [Op.apply, dtor, hc, h]
    · simp [Op.apply, dtor, hc, free_of_closed obj h, h]

theorem applyOps_closed (ops : List Op) (obj : NODE) (h : is_closed obj = true) :
    (applyOps ops obj).1 = [] := by
  induction ops generalizing obj with
  | nil => rfl
  | cons o ops ih =>
    have hk := apply_keeps_closed o obj h
    simp [applyOps, hk.1, ih _ hk.2]

theorem apply_closes_le_one (o : Op) (obj : NODE) :
    nativeCloses (o.apply obj).1 ≤ 1 ∧
      (nativeCloses (o.apply obj).1 ≠ 0 → is_closed (o.apply obj).2 = true) := by
  cases o with
  | close => simp [Op.apply, nativeCloses]
  | use => simp [Op.apply, nativeCloses]
  | release => simp [Op.apply, nativeCloses]
  | free => exact ⟨free_closes_le_one obj, free_closed_after obj⟩
  | dtor count =>
    by_cases hc : count > 1
    · simp [Op.apply, dtor, hc, nativeCloses]
    · simp only [Op.apply, dtor, hc, if_false]
      exact ⟨free_closes_le_one obj, free_closed_after obj⟩

theorem applyOps_closes_le_one (ops : List Op) (obj : NODE) :
    nativeCloses (applyOps ops obj).1 ≤ 1 := by
  induction ops generalizing obj with
  | nil => simp [applyOps, nativeCloses]
  | cons o ops ih =>
    have hk := apply_closes_le_one o obj
    by_cases h0 : nativeCloses (o.apply obj).1 = 0
    · have := ih (o.apply obj).2
      simp only [applyOps, nativeCloses, List.countP_append] at *
      omega
    · have hc := applyOps_closed ops _ (hk.2 h0)
      simp only [applyOps, hc, List.append_nil]
      exact hk.1

/-- C3: over every sequence of state operations (close, use, release, free
and destructor calls with any owner count) on every handle, `sqlite3_close`
is called at most once; `free` does nothing on a handle that is CLOSED or has
no native connection; `close` twice equals `close` once; a `free` after a
`free` or after a `close` makes no native call. -/
theorem C3_native_close_at_most_once (obj : NODE) (ops : List Op) :
    nativeCloses (applyOps ops obj).1 ≤ 1
    ∧ (is_closed obj = true → free obj = ([], obj))
    ∧ (obj.fd = none → free obj = ([], obj))
    ∧ close (close obj) = close obj
    ∧ (free (free obj).2).1 = []
    ∧ (free (close obj)).1 = [] := by
  refine ⟨applyOps_closes_le_one ops obj, free_of_closed obj, free_of_null obj, rfl, ?_, ?_⟩
  · cases hfd : obj.fd with
    | none => simp [free_of_null obj hfd]
    | some fd =>
      by_cases hc : is_closed obj = true
      · simp [free_of_closed obj hc]
      · have h1 : (free obj).2 = close obj := by simp [free, hfd, hc]
        rw [h1, free_of_closed _ (is_closed_close obj)]
  · rw [free_of_closed _ (is_closed_close obj)]

/-- C3 at a concrete handle: an open handle that is freed, closed, freed again
and then destroyed by its last owner sees one native close. -/
theorem C3_native_close_at_most_once_witness :
    nativeCloses (applyOps [Op.free, Op.close, Op.free, Op.dtor 1] { fd := some 7, state := 1 }).1 = 1
    ∧ nativeCloses (applyOps [Op.free, Op.close, Op.free, Op.dtor 1] { fd := some 7, state := 1 }).1 ≤ 1 :=
  ⟨by decide, (C3_native_close_at_most_once { fd := some 7, state := 1 }
    [Op.free, Op.close, Op.free, Op.dtor 1]).1⟩

/-- C2, evaluated on the code: for a handle opened on any native connection,
`close()` followed by the destructor of the last owner calls `sqlite3_close`
zero times and leaves the handle CLOSED with the native pointer still set,
whereas the destructor of the last owner alone calls it once. -/
theorem C2_close_then_last_drop_never_closes (fd : Nat) :
    sqlite_t_open 0 (some fd) "" = Except.ok { fd := some fd, state := SQL_STATE_OPEN }
    ∧ applyOps [Op.close, Op.dtor 1] { fd := some fd, state := SQL_STATE_OPEN }
        = ([], { fd := some fd, state := SQL_STATE_CLOSE })
    ∧ nativeCloses (applyOps [Op.close, Op.dtor 1] { fd := some fd, state := SQL_STATE_OPEN }).1 = 0
    ∧ nativeCloses (applyOps [Op.dtor 1] { fd := some fd, state := SQL_STATE_OPEN }).1 = 1 := by
  refine ⟨rfl, ?_, ?_, ?_⟩ <;>
    simp [applyOps, Op.apply, dtor, free, close, is_closed, nativeCloses, Ev.isClose,
      SQL_STATE_CLOSE, SQL_STATE_OPEN]


/-! ## The façade guard -/

theorem guard_iff (obj : NODE) (cmd : String) :
    (cmd.isEmpty || is_closed obj || obj.fd.isNone) = true
      ↔ (cmd = "" ∨ is_closed obj = true ∨ obj.fd = none) := by
  simp [String.isEmpty_iff, Option.isNone_iff_eq_none, or_assoc]

/-- C1: `emit` returns the error built from "SQL Error: closed" exactly when
the text is empty, the handle is CLOSED or the native pointer is null; then it
makes no native or scheduler call, leaves the system (queue and log) as it
was, so that no later schedule runs anything for it.  The promise body of
`resolve` rejects with the same error under the same condition, as its only
action.  The default-constructed handle satisfies the condition. -/
theorem C1_closed_guard {σ : Type} (eng : Engine) (s : Sys σ) (cmd : String)
    (cb : function_t σ) (acc : σ) (t : Sys (List sql_item_t)) :
    ((emit eng s cmd cb acc).1 = some ⟨["SQL Error: closed"]⟩
        ↔ (cmd = "" ∨ is_closed s.obj = true ∨ s.obj.fd = none))
    ∧ ((cmd = "" ∨ is_closed s.obj = true ∨ s.obj.fd = none) →
        emit eng s cmd cb acc = (some ⟨["SQL Error: closed"]⟩, [], s)
        ∧ ∀ sched, run sched (emit eng s cmd cb acc).2.2 = run sched s)
    ∧ (Ev.rej ⟨["SQL Error: closed"]⟩ ∈ (resolve eng t cmd).1
        ↔ (cmd = "" ∨ is_closed t.obj = true ∨ t.obj.fd = none))
    ∧ ((cmd = "" ∨ is_closed t.obj = true ∨ t.obj.fd = none) →
        resolve eng t cmd = ([Ev.rej ⟨["SQL Error: closed"]⟩], t))
    ∧ (is_closed sqlite_t_default = true ∧ sqlite_t_default.fd = none) := by
  have hne1 : ("SQL Error: something went wrong" : String) ≠ "SQL Error: closed" := by decide
  refine ⟨?_, ?_, ?_, ?_, by decide, rfl⟩
  · by_cases hg : (cmd.isEmpty || is_closed s.obj || s.obj.fd.isNone) = true
    · have hc := (guard_iff s.obj cmd).1 hg
      simp [emit, hg, hc]
    · have hc := mt (guard_iff s.obj cmd).2 hg
      simp only [emit, hg, Bool.false_eq_true, if_false, hc, iff_false]
      by_cases hrc : (eng.prepare cmd).1 ≠ SQLITE_OK
      · simp [hrc]
      · cases hctx : (eng.prepare cmd).2 <;> simp [hrc, hne1]
  · intro hc
    have hg := (guard_iff s.obj cmd).2 hc
    have he : emit eng s cmd cb acc = (some ⟨["SQL Error: closed"]⟩, [], s) := by
      simp [emit, hg]
    exact ⟨he, fun sched => by rw [he]⟩
  · by_cases hg : (cmd.isEmpty || is_closed t.obj || t.obj.fd.isNone) = true
    · have hc := (guard_iff t.obj cmd).1 hg
      simp [resolve, hg, hc]
    · have hc := mt (guard_iff t.obj cmd).2 hg
      simp only [resolve, hg, Bool.false_eq_true, if_false, hc, iff_false]
      by_cases hrc : (eng.prepare cmd).1 ≠ SQLITE_OK
      · simp [hrc]
      · cases hctx : (eng.prepare cmd).2 <;> simp [hrc, hne1]
  · intro hc
    have hg := (guard_iff t.obj cmd).2 hc
    simp [resolve, hg]

/-- C1 at concrete inputs: the empty text on an open handle, and a text on the
default-constructed handle. -/
theorem C1_closed_guard_witness :
    emit { prepare := fun _ => (0, none), errmsg := "" }
        ({ obj := { fd := some 7, state := 1 }, tasks := [], log := [] } : Sys Nat) ""
        (some (fun _ n => n + 1)) 0
      = (some ⟨["SQL Error: closed"]⟩, [],
          { obj := { fd := some 7, state := 1 }, tasks := [], log := [] })
    ∧ resolve { prepare := fun _ => (0, none), errmsg := "" }
        { obj := sqlite_t_default, tasks := [], log := [] } "SELECT 1"
      = ([Ev.rej ⟨["SQL Error: closed"]⟩], { obj := sqlite_t_default, tasks := [], log := [] }) :=
  ⟨((C1_closed_guard { prepare := fun _ => (0, none), errmsg := "" }
        ({ obj := { fd := some 7, state := 1 }, tasks := [], log := [] } : Sys Nat) ""
        (some (fun _ n => n + 1)) 0
        { obj := sqlite_t_default, tasks := [], log := [] }).2.1 (Or.inl rfl)).1,
   (C1_closed_guard { prepare := fun _ => (0, none), errmsg := "" }
        ({ obj := { fd := some 7, state := 1 }, tasks := [], log := [] } : Sys Nat) "SELECT 1"
        none 0
        { obj := sqlite_t_default, tasks := [], log := [] }).2.2.2.1 (Or.inr (Or.inl (by decide)))⟩

/-! ## One unit alone on the scheduler -/

theorem column_names_take (ctx : sqlite3_stmt) (n : Nat) (h : n ≤ ctx.names.length) :
    column_names ctx n [] = ctx.names.take n := by
  induction n with
  | zero => simp [column_names]
  | succ n ih =>
    have hn : n < ctx.names.length := h
    have ih2 := ih (Nat.le_of_lt hn)
    unfold column_names at ih2 ⊢
    rw [List.range_succ, List.foldl_append, ih2]
    simp only [List.foldl_cons, List.foldl_nil, sqlite3_column_name, List.take_succ]
    rw [List.getD_eq_getElem?_getD, List.getElem?_eq_getElem hn]
    rfl

theorem column_names_all (ctx : sqlite3_stmt) :
    column_names ctx (sqlite3_column_count ctx) [] = ctx.names := by
  rw [sqlite3_column_count, column_names_take ctx _ (Nat.le_refl _), List.take_length]

theorem run_append {σ : Type} (a b : List Nat) (s : Sys σ) :
    run (a ++ b) s = run b (run a s) := by
  induction a generalizing s with
  | nil => rfl
  | cons i a ih => simp [run, ih]

theorem run_replicate_succ {σ : Type} (n : Nat) (s : Sys σ) :
    run (List.replicate (n + 1) 0) s = run (List.replicate n 0) (tickTask 0 s) := by
  simp [List.replicate_succ, run]

theorem tick_setup {σ : Type} (obj : NODE) (ctx : sqlite3_stmt) (fn : sql_item_t → σ → σ) (acc : σ)
    (fut : Option (σ → List sql_item_t)) (log : List Tick) (hused : is_used obj = false) :
    tickTask 0 ⟨obj, [⟨{}, ctx, some fn, acc, fut, true⟩], log⟩
      = ⟨use obj,
          [⟨{ _state_ := 1, col := ctx.names, num_fields := ctx.names.length,
              x := ctx.names.length }, ctx, some fn, acc, fut, true⟩],
          log ++ [setupTick ctx.names]⟩ := by
  have hc := column_names_all ctx
  simp only [sqlite3_column_count] at hc
  simp [tickTask, coEmit, hused, setupTick, sqlite3_column_count, hc]

theorem tick_dead {σ : Type} (obj : NODE) (t : Task σ) (log : List Tick) (h : t.live = false) (n : Nat) :
    run (List.replicate n 0) ⟨obj, [t], log⟩ = ⟨obj, [t], log⟩ := by
  induction n with
  | zero => rfl
  | succ n ih =>
    rw [run_replicate_succ]
    have : tickTask 0 (⟨obj, [t], log⟩ : Sys σ) = ⟨obj, [t], log⟩ := by
      simp [tickTask, h]
    rw [this, ih]

theorem rowsOf_cons (names : List String) (a : Int × List (Option String))
    (pre : List (Int × List (Option String))) :
    rowsOf names (a :: pre)
      = if a.1 = SQLITE_ROW then record names a.2 :: rowsOf names pre else rowsOf names pre := by
  by_cases h : a.1 = SQLITE_ROW <;> simp [rowsOf, List.filter_cons, h]

theorem tick_answer {σ : Type} (obj : NODE) (g : cb) (ctx : sqlite3_stmt) (fn : sql_item_t → σ → σ)
    (acc : σ) (fut : Option (σ → List sql_item_t)) (log : List Tick)
    (a : Int × List (Option String)) (rest : List (Int × List (Option String)))
    (names : List String)
    (hpc : g._state_ = 1 ∨ g._state_ = 45) (hcol : g.col = names)
    (hnf : g.num_fields = names.length) (hs : ctx.script = a :: rest)
    (ha : a.1 = SQLITE_BUSY ∨ a.1 = SQLITE_ROW) :
    ∃ g1 ctx1,
      tickTask 0 ⟨obj, [⟨g, ctx, some fn, acc, fut, true⟩], log⟩
        = ⟨obj, [⟨g1, ctx1, some fn,
                  (if a.1 = SQLITE_ROW then fn (record names a.2) acc else acc), fut, true⟩],
            log ++ [answerTick names a]⟩
      ∧ (g1._state_ = 1 ∨ g1._state_ = 45) ∧ g1.col = names ∧ g1.num_fields = names.length
      ∧ ctx1.script = rest := by
  have h0 : ¬ (g._state_ = 0 ∨ g._state_ = 39) := by omega
  have hbr : SQLITE_BUSY ≠ SQLITE_ROW := by decide
  rcases ha with hb | hr
  · have hnr : ¬ a.1 = SQLITE_ROW := by rw [hb]; exact hbr
    refine ⟨{ g with _state_ := 45, err := a.1 }, { ctx with script := rest, row := a.2 }, ?_, ?_⟩
    · simp [tickTask, coEmit, h0, hpc, sqlite3_step, hs, hb, answerTick, hbr]
    · simp [hcol, hnf]
  · have hnb : ¬ a.1 = SQLITE_BUSY := by rw [hr]; exact fun h => hbr h.symm
    refine ⟨{ g with _state_ := 1, err := a.1, x := g.num_fields },
      { ctx with script := rest, row := a.2 }, ?_, ?_⟩
    · have ht : sqlite3_column_text { ctx with script := rest, row := a.2 }
          = fun x => a.2.getD x none := rfl
      have hrb : ¬ (SQLITE_ROW = SQLITE_BUSY) := by decide
      simp [tickTask, coEmit, h0, hpc, sqlite3_step, hs, hr, answerTick, record, hcol, hnf, ht, hrb]
    · simp [hcol, hnf]

theorem run_answers {σ : Type} (obj : NODE) (fn : sql_item_t → σ → σ)
    (fut : Option (σ → List sql_item_t)) (names : List String)
    (rest : List (Int × List (Option String))) (pre : List (Int × List (Option String))) :
    ∀ (g : cb) (ctx : sqlite3_stmt) (acc : σ) (log : List Tick),
      (g._state_ = 1 ∨ g._state_ = 45) → g.col = names → g.num_fields = names.length →
      ctx.script = pre ++ rest → (∀ a ∈ pre, a.1 = SQLITE_BUSY ∨ a.1 = SQLITE_ROW) →
      ∃ g1 ctx1,
        run (List.replicate pre.length 0) ⟨obj, [⟨g, ctx, some fn, acc, fut, true⟩], log⟩
          = ⟨obj, [⟨g1, ctx1, some fn, (rowsOf names pre).foldl (fun s r => fn r s) acc, fut, true⟩],
              log ++ pre.map (answerTick names)⟩
        ∧ (g1._state_ = 1 ∨ g1._state_ = 45) ∧ g1.col = names ∧ g1.num_fields = names.length
        ∧ ctx1.script = rest := by
  induction pre with
  | nil =>
    intro g ctx acc log hpc hcol hnf hs _
    exact ⟨g, ctx, by simp [run, rowsOf], hpc, hcol, hnf, by simpa using hs⟩
  | cons a pre ih =>
    intro g ctx acc log hpc hcol hnf hs hpre
    obtain ⟨g1, ctx1, ht, hpc1, hcol1, hnf1, hs1⟩ :=
      tick_answer obj g ctx fn acc fut log a (pre ++ rest) names hpc hcol hnf
        (by simpa using hs) (hpre a (List.mem_cons_self _ _))
    obtain ⟨g2, ctx2, hr, hpc2, hcol2, hnf2, hs2⟩ :=
      ih g1 ctx1 (if a.1 = SQLITE_ROW then fn (record names a.2) acc else acc)
        (log ++ [answerTick names a]) hpc1 hcol1 hnf1 hs1
        (fun b hb => hpre b (List.mem_cons_of_mem _ hb))
    refine ⟨g2, ctx2, ?_, hpc2, hcol2, hnf2, hs2⟩
    rw [List.length_cons, run_replicate_succ, ht, hr, rowsOf_cons]
    by_cases h : a.1 = SQLITE_ROW <;> simp [h]

theorem tick_terminal {σ : Type} (obj : NODE) (g : cb) (ctx : sqlite3_stmt) (fn : function_t σ)
    (acc : σ) (fut : Option (σ → List sql_item_t)) (log : List Tick)
    (t : Int × List (Option String)) (rest : List (Int × List (Option String)))
    (hpc : g._state_ = 1 ∨ g._state_ = 45) (hs : ctx.script = t :: rest)
    (hb : t.1 ≠ SQLITE_BUSY) (hr : t.1 ≠ SQLITE_ROW) :
    ∃ g1 ctx1,
      tickTask 0 ⟨obj, [⟨g, ctx, fn, acc, fut, true⟩], log⟩
        = ⟨obj, [⟨g1, ctx1, fn, acc, fut, true⟩], log ++ [⟨0, [Ev.sqlite3_step], 1⟩]⟩
      ∧ g1._state_ = 2 := by
  have h0 : ¬ (g._state_ = 0 ∨ g._state_ = 39) := by omega
  refine ⟨{ g with _state_ := 2, err := t.1 }, { ctx with script := rest, row := t.2 }, ?_, rfl⟩
  simp [tickTask, coEmit, h0, hpc, sqlite3_step, hs, hb, hr]

/-- What the completing tick adds when the unit was registered by `resolve`. -/
theorem tick_done {σ : Type} (obj : NODE) (g : cb) (ctx : sqlite3_stmt) (fn : function_t σ)
    (acc : σ) (fut : Option (σ → List sql_item_t)) (log : List Tick) (hpc : g._state_ = 2) :
    tickTask 0 ⟨obj, [⟨g, ctx, fn, acc, fut, true⟩], log⟩
      = ⟨release obj, [⟨{ g with _state_ := 0 }, ctx, fn, acc, fut, false⟩],
          log ++ [⟨0, [Ev.sqlite3_finalize, Ev.release] ++ futEvs fut acc, -1⟩]⟩ := by
  simp [tickTask, coEmit, hpc, futEvs]

theorem tick_null {σ : Type} (obj : NODE) (g : cb) (ctx : sqlite3_stmt)
    (acc : σ) (fut : Option (σ → List sql_item_t)) (log : List Tick)
    (hpc : g._state_ = 0 ∨ g._state_ = 39) (hused : is_used obj = false) :
    tickTask 0 ⟨obj, [⟨g, ctx, none, acc, fut, true⟩], log⟩
      = ⟨release (use obj), [⟨{ g with _state_ := 0 }, ctx, none, acc, fut, false⟩],
          log ++ [⟨0, [Ev.use, Ev.sqlite3_finalize, Ev.release] ++ futEvs fut acc, -1⟩]⟩ := by
  simp [tickTask, coEmit, hpc, hused, futEvs]

theorem tick_wait {σ : Type} (obj : NODE) (g : cb) (ctx : sqlite3_stmt) (fn : function_t σ)
    (acc : σ) (fut : Option (σ → List sql_item_t)) (log : List Tick)
    (hpc : g._state_ = 0 ∨ g._state_ = 39) (hused : is_used obj = true) :
    tickTask 0 ⟨obj, [⟨g, ctx, fn, acc, fut, true⟩], log⟩
      = ⟨obj, [⟨{ g with _state_ := 39 }, ctx, fn, acc, fut, true⟩], log ++ [⟨0, [], 1⟩]⟩ := by
  simp [tickTask, coEmit, hpc, hused]

theorem run_complete {σ : Type} (obj : NODE) (ctx : sqlite3_stmt)
    (pre : List (Int × List (Option String))) (t : Int × List (Option String))
    (fn : sql_item_t → σ → σ) (acc : σ) (fut : Option (σ → List sql_item_t)) (log : List Tick)
    (k : Nat) (hused : is_used obj = false) (hs : ctx.script = pre ++ [t])
    (hpre : ∀ a ∈ pre, a.1 = SQLITE_BUSY ∨ a.1 = SQLITE_ROW)
    (hb : t.1 ≠ SQLITE_BUSY) (hr : t.1 ≠ SQLITE_ROW) :
    ∃ g1 ctx1,
      run (List.replicate (pre.length + 3 + k) 0) ⟨obj, [⟨{}, ctx, some fn, acc, fut, true⟩], log⟩
        = ⟨release (use obj), [⟨g1, ctx1, some fn, deliver fn ctx.names pre acc, fut, false⟩],
            log ++ (setupTick ctx.names :: pre.map (answerTick ctx.names)
              ++ closingTicks (futEvs fut (deliver fn ctx.names pre acc)))⟩ := by
  have hsplit : List.replicate (pre.length + 3 + k) 0
      = (0 :: List.replicate pre.length 0) ++ ([0, 0] ++ List.replicate k 0) := by
    have : pre.length + 3 + k = (pre.length + 1) + (2 + k) := by omega
    rw [this, List.replicate_add, List.replicate_succ, List.replicate_add]
    rfl
  obtain ⟨g1, ctx1, h1, hpc1, _, _, hs1⟩ :=
    run_answers (use obj) fn fut ctx.names [t] pre
      { _state_ := 1, col := ctx.names, num_fields := ctx.names.length, x := ctx.names.length }
      ctx acc (log ++ [setupTick ctx.names]) (Or.inl rfl) rfl rfl hs hpre
  obtain ⟨g2, ctx2, h2, hpc2⟩ :=
    tick_terminal (use obj) g1 ctx1 (some fn) (deliver fn ctx.names pre acc) fut
      (log ++ [setupTick ctx.names] ++ pre.map (answerTick ctx.names)) t [] hpc1 hs1 hb hr
  refine ⟨{ g2 with _state_ := 0 }, ctx2, ?_⟩
  rw [hsplit, run_append, run, tick_setup obj ctx fn acc fut log hused, h1, run_append]
  simp only [run, List.append_eq, List.cons_append, List.nil_append]
  rw [show (rowsOf ctx.names pre).foldl (fun s r => fn r s) acc = deliver fn ctx.names pre acc
    from rfl, h2, tick_done _ _ _ _ _ _ _ hpc2, tick_dead _ _ _ rfl]
  simp [closingTicks]

theorem run_null {σ : Type} (obj : NODE) (ctx : sqlite3_stmt) (acc : σ)
    (fut : Option (σ → List sql_item_t)) (log : List Tick) (k : Nat)
    (hused : is_used obj = false) :
    run (List.replicate (k + 1) 0) ⟨obj, [⟨{}, ctx, none, acc, fut, true⟩], log⟩
      = ⟨release (use obj), [⟨{}, ctx, none, acc, fut, false⟩],
          log ++ [nullTick (futEvs fut acc)]⟩ := by
  rw [run_replicate_succ, tick_null obj {} ctx acc fut log (Or.inl rfl) hused,
    tick_dead _ _ _ rfl]
  rfl

theorem count_allEvs_zero (e : Ev) (l : List Tick) (h : ∀ k ∈ l, e ∉ k.evs) :
    (allEvs l).count e = 0 := by
  apply List.count_eq_zero_of_not_mem
  intro hm
  obtain ⟨k, hk, hek⟩ := List.mem_flatMap.1 hm
  exact h k hk hek

theorem allEvs_append (a b : List Tick) : allEvs (a ++ b) = allEvs a ++ allEvs b := by
  simp [allEvs]

theorem answerTick_quiet (names : List String) (a : Int × List (Option String)) :
    (answerTick names a).ret = 1 ∧ Ev.sqlite3_finalize ∉ (answerTick names a).evs
      ∧ Ev.release ∉ (answerTick names a).evs := by
  by_cases h : a.1 = SQLITE_BUSY <;> simp [answerTick, h]

theorem futEvs_quiet {σ : Type} (fut : Option (σ → List sql_item_t)) (acc : σ) :
    (futEvs fut acc).count Ev.sqlite3_finalize = 0 ∧ (futEvs fut acc).count Ev.release = 0 := by
  cases fut <;> simp [futEvs]

/-! ## Registration by the façade -/

theorem emit_ok {σ : Type} (eng : Engine) (obj : NODE) (log : List Tick) (cmd : String)
    (ctx : sqlite3_stmt) (cb : function_t σ) (acc : σ)
    (hcmd : cmd ≠ "") (hopen : is_closed obj = false) (hfd : obj.fd ≠ none)
    (hprep : eng.prepare cmd = (SQLITE_OK, some ctx)) :
    emit eng ⟨obj, [], log⟩ cmd cb acc
      = (none, [Ev.sqlite3_prepare_v2 cmd, Ev.process_add],
          ⟨obj, [⟨{}, ctx, cb, acc, none, true⟩], log⟩) := by
  have hg : ¬ (cmd.isEmpty || is_closed obj || obj.fd.isNone) = true := by
    rw [guard_iff]
    simp [hcmd, hopen, hfd]
  simp [emit, hg, hprep]

theorem cbArg_futEvs {σ : Type} (fut : Option (σ → List sql_item_t)) (acc : σ) :
    (futEvs fut acc).filterMap Ev.cbArg = [] := by
  cases fut <;> simp [futEvs, Ev.cbArg]

/-- C10: `emit` called without a callback, on an open handle and a text the
engine prepares, returns no error and registers a unit whose consumer is null.
Such a unit, resumed in INIT when USED is clear, takes USED, finalizes the
statement, releases USED and returns `-1`, all in that tick, leaving the
statement as it was prepared: no step, no column count, no column name, no
consumer invocation; USED is set by the `use()` of that tick, and after the
tick the USED flag of the handle is clear and its CLOSED flag and native
pointer are as before.  Resumed while USED is set it
only waits and leaves the handle as it is.  So the whole run on an unused
handle is that single tick, and it ends with USED clear. -/
theorem C10_null_consumer_never_steps {σ : Type} (eng : Engine) (obj : NODE) (cmd : String)
    (ctx : sqlite3_stmt) (acc : σ) (n : Nat)
    (hcmd : cmd ≠ "") (hopen : is_closed obj = false) (hfd : obj.fd ≠ none)
    (hprep : eng.prepare cmd = (SQLITE_OK, some ctx)) :
    emit eng ⟨obj, [], []⟩ cmd none acc
      = (none, [Ev.sqlite3_prepare_v2 cmd, Ev.process_add],
          ⟨obj, [⟨{}, ctx, none, acc, none, true⟩], []⟩)
    ∧ (∀ (g : cb) (self : NODE) (log : List Tick), (g._state_ = 0 ∨ g._state_ = 39) →
        (is_used self = false →
          tickTask 0 ⟨self, [⟨g, ctx, none, acc, none, true⟩], log⟩
            = ⟨release (use self), [⟨{ g with _state_ := 0 }, ctx, none, acc, none, false⟩],
                log ++ [⟨0, [Ev.use, Ev.sqlite3_finalize, Ev.release], -1⟩]⟩)
        ∧ (is_used self = true →
          tickTask 0 ⟨self, [⟨g, ctx, none, acc, none, true⟩], log⟩
            = ⟨self, [⟨{ g with _state_ := 39 }, ctx, none, acc, none, true⟩],
                log ++ [⟨0, [], 1⟩]⟩))
    ∧ (is_used obj = false →
        run (List.replicate (n + 1) 0) (emit eng ⟨obj, [], []⟩ cmd none acc).2.2
          = ⟨release (use obj), [⟨{}, ctx, none, acc, none, false⟩],
              [⟨0, [Ev.use, Ev.sqlite3_finalize, Ev.release], -1⟩]⟩)
    ∧ (∀ (g : cb) (self : NODE) (log : List Tick), (g._state_ = 0 ∨ g._state_ = 39) →
        is_used self = false →
        is_used (use self) = true
        ∧ is_used (tickTask 0 ⟨self, [⟨g, ctx, none, acc, none, true⟩], log⟩).obj = false
        ∧ is_closed (tickTask 0 ⟨self, [⟨g, ctx, none, acc, none, true⟩], log⟩).obj
            = is_closed self
        ∧ (tickTask 0 ⟨self, [⟨g, ctx, none, acc, none, true⟩], log⟩).obj.fd = self.fd)
    ∧ (is_used obj = false →
        is_used (run (List.replicate (n + 1) 0)
            (emit eng ⟨obj, [], []⟩ cmd none acc).2.2).obj = false
        ∧ is_closed (run (List.replicate (n + 1) 0)
            (emit eng ⟨obj, [], []⟩ cmd none acc).2.2).obj = false) := by
  have he := emit_ok eng obj [] cmd ctx (none : function_t σ) acc hcmd hopen hfd hprep
  have hset : ∀ o : NODE, is_used (use o) = true := by
    intro o
    rw [is_used_eq_testBit]
    have h : SQL_STATE_USED.testBit 7 = true := by decide
    simp [use, Nat.testBit_or, h]
  have hclear : ∀ o : NODE, is_used (release (use o)) = false := by
    intro o
    rw [is_used_eq_testBit]
    have h : NOT_SQL_STATE_USED.testBit 7 = false := by decide
    simp [release, Nat.testBit_and, h]
  have hframe : ∀ o : NODE, is_closed (release (use o)) = is_closed o := by
    intro o
    rw [is_closed_eq_testBit, is_closed_eq_testBit]
    have h1 : NOT_SQL_STATE_USED.testBit 1 = true := by decide
    have h2 : SQL_STATE_USED.testBit 1 = false := by decide
    simp [release, use, Nat.testBit_and, Nat.testBit_or, h1, h2]
  refine ⟨he, ?_, ?_, ?_, ?_⟩
  · intro g self log hpc
    refine ⟨fun hu => ?_, fun hu => ?_⟩
    · rw [tick_null self g ctx acc none log hpc hu]
      simp [futEvs]
    · rw [tick_wait self g ctx none acc none log hpc hu]
  · intro hu
    rw [he, run_null obj ctx acc none [] n hu]
    simp [nullTick, futEvs]
  · intro g self log hpc hu
    rw [tick_null self g ctx acc none log hpc hu]
    exact ⟨hset self, hclear self, hframe self, rfl⟩
  · intro hu
    rw [he, run_null obj ctx acc none [] n hu]
    exact ⟨hclear obj, by rw [hframe obj]; exact hopen⟩

/-- C10 at a concrete run: `emit` without callback on the demo handle; the
only tick takes, finalizes and releases, and USED is clear afterwards. -/
theorem C10_null_consumer_never_steps_witness :
    (emit demoEngine (⟨demoHandle, [], []⟩ : Sys Nat) "SELECT * FROM t" none 0).1 = none
    ∧ (run (List.replicate 3 0)
        (emit demoEngine (⟨demoHandle, [], []⟩ : Sys Nat) "SELECT * FROM t" none 0).2.2).log
      = [⟨0, [Ev.use, Ev.sqlite3_finalize, Ev.release], -1⟩]
    ∧ is_used (run (List.replicate 3 0)
        (emit demoEngine (⟨demoHandle, [], []⟩ : Sys Nat) "SELECT * FROM t" none 0).2.2).obj
      = false
    ∧ is_used (use demoHandle) = true
    ∧ is_used (release (use demoHandle)) = false :=
  have h := C10_null_consumer_never_steps demoEngine demoHandle "SELECT * FROM t" demoStmt
    (0 : Nat) 2 (by decide) (by decide) (by decide) rfl
  ⟨congrArg Prod.fst h.1, congrArg Sys.log (h.2.2.1 (by decide)),
    (h.2.2.2.2 (by decide)).1, by decide, by decide⟩

/-! ## The future of `resolve` -/

theorem tally_futEvs {σ : Type} (fut : Option (σ → List sql_item_t)) (acc : σ) :
    tally (futEvs fut acc) = (0, 0, 0) := by
  cases fut <;> simp [futEvs, tally]

theorem tally_append (a b : List Ev) :
    tally (a ++ b) = ((tally a).1 + (tally b).1, (tally a).2.1 + (tally b).2.1,
      (tally a).2.2 + (tally b).2.2) := by
  simp [tally, List.count_append]

theorem tally_names (n : Nat) : tally ((List.range n).map Ev.sqlite3_column_name) = (0, 0, 0) := by
  simp [tally, List.count_eq_zero]

theorem tally_texts (n : Nat) : tally ((List.range n).map Ev.sqlite3_column_text) = (0, 0, 0) := by
  simp [tally, List.count_eq_zero]

/-- What one resumption does, by the label the generator is at. -/
theorem coEmit_summary {σ : Type} (g : cb) (ctx : sqlite3_stmt) (f : function_t σ) (self : NODE)
    (acc : σ)
    (hpc : (g._state_ = 0 ∨ g._state_ = 39) ∨ (g._state_ = 1 ∨ g._state_ = 45) ∨ g._state_ = 2) :
    ((g._state_ = 0 ∨ g._state_ = 39) ∧ is_used self = true
        ∧ (coEmit g ctx f self acc).ret = 1 ∧ (coEmit g ctx f self acc).self = self
        ∧ (coEmit g ctx f self acc).gen._state_ = 39 ∧ (coEmit g ctx f self acc).evs = [])
    ∨ ((g._state_ = 0 ∨ g._state_ = 39) ∧ is_used self = false
        ∧ (coEmit g ctx f self acc).ret = -1
        ∧ (coEmit g ctx f self acc).self = release (use self)
        ∧ tally (coEmit g ctx f self acc).evs = (1, 1, 1)
        ∧ works (coEmit g ctx f self acc).evs = false)
    ∨ ((g._state_ = 0 ∨ g._state_ = 39) ∧ is_used self = false
        ∧ (coEmit g ctx f self acc).ret = 1 ∧ (coEmit g ctx f self acc).self = use self
        ∧ (coEmit g ctx f self acc).gen._state_ = 1
        ∧ tally (coEmit g ctx f self acc).evs = (1, 0, 0))
    ∨ ((g._state_ = 1 ∨ g._state_ = 45)
        ∧ (coEmit g ctx f self acc).ret = 1 ∧ (coEmit g ctx f self acc).self = self
        ∧ ((coEmit g ctx f self acc).gen._state_ = 1 ∨ (coEmit g ctx f self acc).gen._state_ = 45
            ∨ (coEmit g ctx f self acc).gen._state_ = 2)
        ∧ tally (coEmit g ctx f self acc).evs = (0, 0, 0))
    ∨ (g._state_ = 2
        ∧ (coEmit g ctx f self acc).ret = -1 ∧ (coEmit g ctx f self acc).self = release self
        ∧ tally (coEmit g ctx f self acc).evs = (0, 1, 1)
        ∧ works (coEmit g ctx f self acc).evs = false) := by
  rcases hpc with h0 | h1 | h2
  · by_cases hu : is_used self = true
    · exact Or.inl ⟨h0, hu, by simp [coEmit, h0, hu]⟩
    · have hu2 : is_used self = false := by simpa using hu
      cases f with
      | none =>
        exact Or.inr (Or.inl ⟨h0, hu2, by simp [coEmit, h0, hu2, tally, works]⟩)
      | some fn =>
        refine Or.inr (Or.inr (Or.inl ⟨h0, hu2, ?_⟩))
        have hn := tally_names (sqlite3_column_count ctx)
        simp only [tally, Prod.mk.injEq] at hn
        simp [coEmit, h0, hu2, tally, List.count_cons, hn]
  · have hn0 : ¬ (g._state_ = 0 ∨ g._state_ = 39) := by omega
    refine Or.inr (Or.inr (Or.inr (Or.inl ⟨h1, ?_⟩)))
    have ht := tally_texts g.num_fields
    simp only [tally, Prod.mk.injEq] at ht
    by_cases hb : (sqlite3_step ctx).1 = SQLITE_BUSY
    · simp [coEmit, hn0, h1, hb, tally]
    · by_cases hr : (sqlite3_step ctx).1 = SQLITE_ROW
      · have hrb : ¬ (SQLITE_ROW = SQLITE_BUSY) := by decide
        cases f with
        | none => simp [coEmit, hn0, h1, hrb, hr, tally, List.count_cons, List.count_append, ht]
        | some fn => simp [coEmit, hn0, h1, hrb, hr, tally, List.count_cons, List.count_append, ht]
      · simp [coEmit, hn0, h1, hb, hr, tally]
  · refine Or.inr (Or.inr (Or.inr (Or.inr ⟨h2, ?_⟩)))
    simp [coEmit, h2, tally, works]

theorem tally_evsOf_snoc (i j : Nat) (log : List Tick) (evs : List Ev) (ret : Int) :
    tally (evsOf i (log ++ [⟨j, evs, ret⟩]))
      = if j = i then ((tally (evsOf i log)).1 + (tally evs).1,
                       (tally (evsOf i log)).2.1 + (tally evs).2.1,
                       (tally (evsOf i log)).2.2 + (tally evs).2.2)
        else tally (evsOf i log) := by
  by_cases h : j = i
  · subst h
    simp [evsOf, List.filter_append, tally_append]
  · simp [evsOf, List.filter_append, h]

/-- What a tick of a registered, live unit does to the system, in the terms
the invariant needs. -/
theorem tick_summary {σ : Type} (s : Sys σ) (j : Nat) (t : Task σ)
    (hj : s.tasks[j]? = some t) (hl : t.live = true)
    (hlab : t.inInit = true ∨ t.holding = true)
    (hused : t.holding = true → is_used s.obj = true) :
    ∃ (obj1 : NODE) (t1 : Task σ) (evs : List Ev) (ret : Int),
      tickTask j s = ⟨obj1, s.tasks.set j t1, s.log ++ [⟨j, evs, ret⟩]⟩
      ∧ (t1.holding = true → is_used obj1 = true)
      ∧ (t.holding = false → t1.holding = true → is_used s.obj = false)
      ∧ (t1.holding = false → (is_used obj1 = true ↔ (is_used s.obj = true ∧ t.holding = false)))
      ∧ (t1.live = true → t1.inInit = true ∨ t1.holding = true)
      ∧ t1.due = (t.due.1 + (tally evs).1, t.due.2.1 + (tally evs).2.1,
          t.due.2.2 + (tally evs).2.2)
      ∧ (t.inInit = true → is_used s.obj = true →
          t1.inInit = true ∧ obj1 = s.obj ∧ evs = [] ∧ ret = 1)
      ∧ (t.inInit = true → t1.inInit = false → is_used s.obj = false)
      ∧ (works evs = true → t1.holding = true) := by
  have hpc : (t.gen._state_ = 0 ∨ t.gen._state_ = 39)
      ∨ (t.gen._state_ = 1 ∨ t.gen._state_ = 45) ∨ t.gen._state_ = 2 := by
    rcases hlab with h | h
    · simp [Task.inInit, hl] at h
      exact Or.inl h
    · simp [Task.holding, hl] at h
      rcases h with (h | h) | h
      · exact Or.inr (Or.inl (Or.inl h))
      · exact Or.inr (Or.inl (Or.inr h))
      · exact Or.inr (Or.inr h)
  have hsum := coEmit_summary t.gen t.ctx t.fn s.obj t.acc hpc
  generalize ho : coEmit t.gen t.ctx t.fn s.obj t.acc = o at hsum
  have hf := tally_futEvs t.fut o.acc
  have hwf : works (futEvs t.fut o.acc) = false := by
    cases t.fut <;> simp [futEvs, works]
  rcases hsum with
    ⟨h0, hu, hret, hself, hgen, hevs⟩ | ⟨h0, hu, hret, hself, htal, hw⟩
      | ⟨h0, hu, hret, hself, hgen, htal⟩ | ⟨h1, hret, hself, hgen, htal⟩
      | ⟨h2, hret, hself, htal, hw⟩
  · have hth : t.holding = false := by
      rcases h0 with h | h <;> simp [Task.holding, h]
    have hti : t.inInit = true := by
      rcases h0 with h | h <;> simp [Task.inInit, h, hl]
    have htd : t.due = (0, 0, 0) := by simp [Task.due, hl, hth]
    obtain ⟨t1, ht1⟩ : ∃ t1 : Task σ, t1 = { t with gen := o.gen, ctx := o.ctx, acc := o.acc } :=
      ⟨_, rfl⟩
    have h1h : t1.holding = false := by rw [ht1]; simp [Task.holding, hgen]
    have h1i : t1.inInit = true := by rw [ht1]; simp [Task.inInit, hgen, hl]
    have h1d : t1.due = (0, 0, 0) := by
      have h1l : t1.live = true := by rw [ht1]; exact hl
      simp [Task.due, h1l, h1h]
    refine ⟨s.obj, t1, [], 1, ?_, ?_⟩
    · rw [ht1]
      simp [tickTask, hj, hl, ho, hret, hself, hevs]
    · simp [h1h, h1i, h1d, hth, hti, htd, hu, tally, works]
  · have hth : t.holding = false := by
      rcases h0 with h | h <;> simp [Task.holding, h]
    have htd : t.due = (0, 0, 0) := by simp [Task.due, hl, hth]
    obtain ⟨t1, ht1⟩ : ∃ t1 : Task σ,
        t1 = { t with gen := o.gen, ctx := o.ctx, acc := o.acc, live := false } := ⟨_, rfl⟩
    have h1l : t1.live = false := by rw [ht1]
    have h1h : t1.holding = false := by rw [ht1]; simp [Task.holding]
    have h1i : t1.inInit = false := by rw [ht1]; simp [Task.inInit]
    have h1d : t1.due = (1, 1, 1) := by simp [Task.due, h1l]
    have hw2 : works (o.evs ++ futEvs t.fut o.acc) = false := by
      simp only [works, List.contains_eq_any_beq, List.any_append,
        Bool.or_eq_false_iff] at hw hwf ⊢
      simp [hw, hwf]
    refine ⟨release (use s.obj), t1, o.evs ++ futEvs t.fut o.acc, -1, ?_, ?_⟩
    · rw [ht1]
      simp [tickTask, hj, hl, ho, hret, hself]
    · simp [h1h, h1i, h1d, h1l, hth, htd, hu, is_used_release, tally_append, htal, hf, hw2]
  · have hth : t.holding = false := by
      rcases h0 with h | h <;> simp [Task.holding, h]
    have htd : t.due = (0, 0, 0) := by simp [Task.due, hl, hth]
    obtain ⟨t1, ht1⟩ : ∃ t1 : Task σ, t1 = { t with gen := o.gen, ctx := o.ctx, acc := o.acc } :=
      ⟨_, rfl⟩
    have h1l : t1.live = true := by rw [ht1]; exact hl
    have h1h : t1.holding = true := by rw [ht1]; simp [Task.holding, hgen, hl]
    have h1d : t1.due = (1, 0, 0) := by simp [Task.due, h1l, h1h]
    refine ⟨use s.obj, t1, o.evs, 1, ?_, ?_⟩
    · rw [ht1]
      simp [tickTask, hj, hl, ho, hret, hself]
    · simp [h1h, h1d, hth, htd, hu, is_used_use, htal]
  · have hth : t.holding = true := by
      rcases h1 with h | h <;> simp [Task.holding, h, hl]
    have hti : t.inInit = false := by
      rcases h1 with h | h <;> simp [Task.inInit, h]
    have htd : t.due = (1, 0, 0) := by simp [Task.due, hl, hth]
    have hu := hused hth
    obtain ⟨t1, ht1⟩ : ∃ t1 : Task σ, t1 = { t with gen := o.gen, ctx := o.ctx, acc := o.acc } :=
      ⟨_, rfl⟩
    have h1l : t1.live = true := by rw [ht1]; exact hl
    have h1h : t1.holding = true := by
      rw [ht1]
      rcases hgen with h | h | h <;> simp [Task.holding, h, hl]
    have h1d : t1.due = (1, 0, 0) := by simp [Task.due, h1l, h1h]
    refine ⟨s.obj, t1, o.evs, 1, ?_, ?_⟩
    · rw [ht1]
      simp [tickTask, hj, hl, ho, hret, hself]
    · simp [h1h, h1d, hth, hti, htd, hu, htal]
  · have hth : t.holding = true := by simp [Task.holding, h2, hl]
    have hti : t.inInit = false := by simp [Task.inInit, h2]
    have htd : t.due = (1, 0, 0) := by simp [Task.due, hl, hth]
    obtain ⟨t1, ht1⟩ : ∃ t1 : Task σ,
        t1 = { t with gen := o.gen, ctx := o.ctx, acc := o.acc, live := false } := ⟨_, rfl⟩
    have h1l : t1.live = false := by rw [ht1]
    have h1h : t1.holding = false := by rw [ht1]; simp [Task.holding]
    have h1i : t1.inInit = false := by rw [ht1]; simp [Task.inInit]
    have h1d : t1.due = (1, 1, 1) := by simp [Task.due, h1l]
    have hw2 : works (o.evs ++ futEvs t.fut o.acc) = false := by
      simp only [works, List.contains_eq_any_beq, List.any_append,
        Bool.or_eq_false_iff] at hw hwf ⊢
      simp [hw, hwf]
    refine ⟨release s.obj, t1, o.evs ++ futEvs t.fut o.acc, -1, ?_, ?_⟩
    · rw [ht1]
      simp [tickTask, hj, hl, ho, hret, hself]
    · simp [h1h, h1i, h1d, h1l, hth, hti, htd, is_used_release, tally_append, htal, hf, hw2]

theorem set_lookup {α : Type} (l : List α) (j i : Nat) (a b : α)
    (h : (l.set j a)[i]? = some b) : (i = j ∧ b = a) ∨ (i ≠ j ∧ l[i]? = some b) := by
  rw [List.getElem?_set] at h
  by_cases hji : j = i
  · subst hji
    by_cases hlt : j < l.length
    · simp [hlt] at h
      exact Or.inl ⟨rfl, h.symm⟩
    · simp [hlt] at h
  · rw [if_neg hji] at h
    exact Or.inr ⟨fun hh => hji hh.symm, h⟩

theorem set_lookup_self {α : Type} (l : List α) (j : Nat) (a b : α) (h : l[j]? = some b) :
    (l.set j a)[j]? = some a := by
  have hlt : j < l.length := by
    by_contra hge
    rw [List.getElem?_eq_none (by omega)] at h
    exact absurd h (by simp)
  rw [List.getElem?_set]
  simp [hlt]

theorem set_lookup_other {α : Type} (l : List α) (j i : Nat) (a : α) (h : i ≠ j) :
    (l.set j a)[i]? = l[i]? := by
  rw [List.getElem?_set, if_neg (fun hh => h hh.symm)]

theorem inv_tick {σ : Type} (s : Sys σ) (h : Inv s) (j : Nat) : Inv (tickTask j s) := by
  cases hj : s.tasks[j]? with
  | none =>
    have : tickTask j s = s := by simp [tickTask, hj]
    rw [this]
    exact h
  | some t =>
    by_cases hl : t.live = true
    · obtain ⟨obj1, t1, evs, ret, htick, g1, g2, g3, g5, g6, _, _, _⟩ :=
        tick_summary s j t hj hl (h.label j t hj hl) (h.used j t hj)
      rw [htick]
      refine ⟨?_, ?_, ?_, ?_, ?_⟩
      · intro i ti hi hli
        rcases set_lookup _ _ _ _ _ hi with ⟨_, rfl⟩ | ⟨_, hi2⟩
        · exact g5 hli
        · exact h.label i ti hi2 hli
      · intro i ti hi hho
        rcases set_lookup _ _ _ _ _ hi with ⟨_, rfl⟩ | ⟨hne, hi2⟩
        · exact g1 hho
        · have hu := h.used i ti hi2 hho
          by_cases h1 : t1.holding = true
          · exact g1 h1
          · have h1f : t1.holding = false := by simpa using h1
            refine (g3 h1f).2 ⟨hu, ?_⟩
            by_contra hth
            have hth2 : t.holding = true := by simpa using hth
            exact hne (h.single i j ti t hi2 hj hho hth2)
      · intro hu1
        by_cases h1 : t1.holding = true
        · exact ⟨j, t1, set_lookup_self _ _ _ _ hj, h1⟩
        · have h1f : t1.holding = false := by simpa using h1
          obtain ⟨hu, hth⟩ := (g3 h1f).1 hu1
          obtain ⟨i, ti, hi, hho⟩ := h.held hu
          have hne : i ≠ j := by
            rintro rfl
            rw [hj] at hi
            cases hi
            rw [hth] at hho
            exact absurd hho (by simp)
          exact ⟨i, ti, by rw [set_lookup_other _ _ _ _ hne]; exact hi, hho⟩
      · intro i1 i2 ta tb ha hb hha hhb
        have key : ∀ (i : Nat) (ti : Task σ), i ≠ j → s.tasks[i]? = some ti →
            ti.holding = true → t1.holding = true → False := by
          intro i ti hne hi hho h1
          by_cases hth : t.holding = true
          · exact hne (h.single i j ti t hi hj hho hth)
          · have hth2 : t.holding = false := by simpa using hth
            have hu := g2 hth2 h1
            rw [h.used i ti hi hho] at hu
            exact absurd hu (by simp)
        rcases set_lookup _ _ _ _ _ ha with ⟨rfl, rfl⟩ | ⟨hnea, ha2⟩
        · rcases set_lookup _ _ _ _ _ hb with ⟨rfl, _⟩ | ⟨hneb, hb2⟩
          · rfl
          · exact (key i2 tb hneb hb2 hhb hha).elim
        · rcases set_lookup _ _ _ _ _ hb with ⟨rfl, rfl⟩ | ⟨hneb, hb2⟩
          · exact (key i1 ta hnea ha2 hha hhb).elim
          · exact h.single i1 i2 ta tb ha2 hb2 hha hhb
      · intro i ti hi
        rw [tally_evsOf_snoc]
        rcases set_lookup _ _ _ _ _ hi with ⟨rfl, rfl⟩ | ⟨hne, hi2⟩
        · rw [if_pos rfl, h.events i t hj, g6]
        · rw [if_neg (fun hh => hne hh.symm)]
          exact h.events i ti hi2
    · have : tickTask j s = s := by simp [tickTask, hj, hl]
      rw [this]
      exact h

theorem inv_run {σ : Type} (sched : List Nat) (s : Sys σ) (h : Inv s) : Inv (run sched s) := by
  induction sched generalizing s with
  | nil => exact h
  | cons j sched ih => exact ih _ (inv_tick s h j)

theorem inv_fresh {σ : Type} (s : Sys σ) (hclear : is_used s.obj = false)
    (hfresh : ∀ t ∈ s.tasks, t.live = true ∧ t.gen._state_ = 0) (hlog : s.log = []) : Inv s := by
  have hmem : ∀ (i : Nat) (t : Task σ), s.tasks[i]? = some t → t ∈ s.tasks :=
    fun _ _ hi => List.getElem?_mem hi
  have hnot : ∀ (i : Nat) (t : Task σ), s.tasks[i]? = some t → t.holding = false := by
    intro i t hi
    have := hfresh t (hmem i t hi)
    simp [Task.holding, this.2]
  refine ⟨?_, ?_, ?_, ?_, ?_⟩
  · intro i t hi _
    have := hfresh t (hmem i t hi)
    exact Or.inl (by simp [Task.inInit, this.1, this.2])
  · intro i t hi hho
    rw [hnot i t hi] at hho
    exact absurd hho (by simp)
  · intro hu
    rw [hclear] at hu
    exact absurd hu (by simp)
  · intro i j ti tj hi _ hho _
    rw [hnot i ti hi] at hho
    exact absurd hho (by simp)
  · intro i t hi
    have := hfresh t (hmem i t hi)
    simp [hlog, evsOf, tally, Task.due, this.1, hnot i t hi]

/-- C4: start from a handle whose USED flag is clear, any number of freshly
registered units and an empty log, and resume units in any order.  Then at
every instant at most one unit is between taking USED and releasing it, and
USED is set exactly when there is such a unit.  A unit resumed in INIT while
USED is set stays in INIT, does nothing and returns `1`; a unit that leaves
INIT on a tick found USED clear.  When a tick performs column setup or a
native step, no other unit holds the handle, and every other unit that ever
took USED has finalized its statement and released USED, once each. -/
theorem C4_one_holder_at_a_time {σ : Type} (s0 : Sys σ) (hclear : is_used s0.obj = false)
    (hfresh : ∀ t ∈ s0.tasks, t.live = true ∧ t.gen._state_ = 0) (hlog : s0.log = [])
    (sched : List Nat) :
    (∀ (i j : Nat) (ti tj : Task σ), (run sched s0).tasks[i]? = some ti →
        (run sched s0).tasks[j]? = some tj → ti.holding = true → tj.holding = true → i = j)
    ∧ (is_used (run sched s0).obj = true
        ↔ ∃ (i : Nat) (t : Task σ), (run sched s0).tasks[i]? = some t ∧ t.holding = true)
    ∧ (∀ (j : Nat) (t : Task σ), (run sched s0).tasks[j]? = some t → t.inInit = true →
        is_used (run sched s0).obj = true →
        ∃ t1 : Task σ, tickTask j (run sched s0)
            = ⟨(run sched s0).obj, (run sched s0).tasks.set j t1,
                (run sched s0).log ++ [⟨j, [], 1⟩]⟩
          ∧ t1.inInit = true)
    ∧ (∀ (j : Nat) (t t1 : Task σ), (run sched s0).tasks[j]? = some t → t.inInit = true →
        (tickTask j (run sched s0)).tasks[j]? = some t1 → t1.inInit = false →
        is_used (run sched s0).obj = false)
    ∧ (∀ (j : Nat) (evs : List Ev) (ret : Int),
        (tickTask j (run sched s0)).log = (run sched s0).log ++ [⟨j, evs, ret⟩] →
        works evs = true →
        ∀ (i : Nat) (ti : Task σ), i ≠ j → (run sched s0).tasks[i]? = some ti →
          ti.holding = false
          ∧ ((tally (evsOf i (run sched s0).log)).1 = 1 →
              tally (evsOf i (run sched s0).log) = (1, 1, 1))) := by
  have hinv : Inv (run sched s0) := inv_run sched s0 (inv_fresh s0 hclear hfresh hlog)
  generalize run sched s0 = s at hinv
  refine ⟨hinv.single, ⟨hinv.held, fun ⟨i, t, hi, hho⟩ => hinv.used i t hi hho⟩, ?_, ?_, ?_⟩
  · intro j t hj hin hu
    have hl : t.live = true := by
      simp only [Task.inInit, Bool.and_eq_true] at hin
      exact hin.1
    obtain ⟨obj1, t1, evs, ret, htick, _, _, _, _, _, h7, _, _⟩ :=
      tick_summary s j t hj hl (Or.inl hin) (hinv.used j t hj)
    obtain ⟨h1i, hobj, hevs, hret⟩ := h7 hin hu
    exact ⟨t1, by rw [htick, hobj, hevs, hret], h1i⟩
  · intro j t t1 hj hin hj1 h1n
    have hl : t.live = true := by
      simp only [Task.inInit, Bool.and_eq_true] at hin
      exact hin.1
    obtain ⟨obj1, t2, evs, ret, htick, _, _, _, _, _, _, h8, _⟩ :=
      tick_summary s j t hj hl (Or.inl hin) (hinv.used j t hj)
    rw [htick] at hj1
    have : (s.tasks.set j t2)[j]? = some t2 := set_lookup_self _ _ _ _ hj
    have ht : t1 = t2 := by
      simp only at hj1
      rw [this] at hj1
      exact (Option.some.inj hj1).symm
    rw [ht] at h1n
    exact h8 hin h1n
  · intro j evs ret hlogj hw i ti hne hi
    have hinv1 : Inv (tickTask j s) := inv_tick s hinv j
    have hgrow : (tickTask j s).log ≠ s.log := by
      rw [hlogj]
      intro h
      have := congrArg List.length h
      simp at this
    cases hj : s.tasks[j]? with
    | none => exact absurd (by simp [tickTask, hj]) hgrow
    | some t =>
      by_cases hl : t.live = true
      · obtain ⟨obj1, t1, evs1, ret1, htick, _, _, _, _, _, _, _, h9⟩ :=
          tick_summary s j t hj hl (hinv.label j t hj hl) (hinv.used j t hj)
        have hevs : evs1 = evs := by
          rw [htick] at hlogj
          simp only [List.append_cancel_left_eq, List.cons.injEq, and_true] at hlogj
          exact (Tick.mk.inj hlogj).2.1
        have h1h : t1.holding = true := h9 (by rw [hevs]; exact hw)
        have hi1 : (tickTask j s).tasks[i]? = some ti := by
          rw [htick]
          simp only
          rw [set_lookup_other _ _ _ _ hne]
          exact hi
        have hj1 : (tickTask j s).tasks[j]? = some t1 := by
          rw [htick]
          exact set_lookup_self _ _ _ _ hj
        have hnh : ti.holding = false := by
          by_contra hc
          have hc2 : ti.holding = true := by simpa using hc
          exact hne (hinv1.single i j ti t1 hi1 hj1 hc2 h1h)
        refine ⟨hnh, fun h1 => ?_⟩
        have hev := hinv.events i ti hi
        rw [hev] at h1 ⊢
        by_cases hli : ti.live = true
        · simp [Task.due, hli, hnh] at h1
        · simp [Task.due, hli]
      · exact absurd (by simp [tickTask, hj, hl]) hgrow

/-- C4 at a concrete system: two units on the demo handle, resumed in the
order 0, 1, 1, 0, 1; unit 0 holds the handle, unit 1 waits, USED is set. -/
theorem C4_one_holder_at_a_time_witness :
    (run [0, 1, 1, 0, 1] twoUnits).tasks.map Task.holding = [true, false]
    ∧ (is_used (run [0, 1, 1, 0, 1] twoUnits).obj = true
        ↔ ∃ (i : Nat) (t : Task Nat),
            (run [0, 1, 1, 0, 1] twoUnits).tasks[i]? = some t ∧ t.holding = true) :=
  ⟨by decide,
   (C4_one_holder_at_a_time twoUnits (by decide)
    (by
      intro t ht
      simp only [twoUnits, List.mem_cons, List.mem_singleton, List.not_mem_nil, or_false] at ht
      rcases ht with rfl | rfl <;> exact ⟨rfl, rfl⟩)
    rfl [0, 1, 1, 0, 1]).2.1⟩

/-- C9, evaluated on the code: `close()` on a handle whose USED flag is set
leaves it clear, and the state is then exactly CLOSE.  With unit 0 holding the
handle and unit 1 waiting in INIT, a `close()` lets the next tick of unit 1
take USED and set up its columns: both units then hold the handle, and the log
shows USED taken twice with no finalize and no release. -/
theorem C9_close_clears_used :
    is_used (use demoHandle) = true
    ∧ is_used (close (use demoHandle)) = false
    ∧ (close (use demoHandle)).state = SQL_STATE_CLOSE
    ∧ (run [0] twoUnits).tasks.map Task.holding = [true, false]
    ∧ closeWhileRunning.tasks.map Task.holding = [true, true]
    ∧ closeWhileRunning.log
        = [⟨0, [Ev.use, Ev.sqlite3_column_count, Ev.sqlite3_column_name 0,
                Ev.sqlite3_column_name 1], 1⟩,
           ⟨1, [Ev.use, Ev.sqlite3_column_count, Ev.sqlite3_column_name 0,
                Ev.sqlite3_column_name 1], 1⟩] := by
  refine ⟨by decide, by decide, rfl, by decide, by decide, by decide⟩

/-- C5: a unit started on a handle whose USED flag is clear, with any consumer
(null or not) and any script of busy and row answers ended by a first other
answer, completes: once the scheduler has resumed it often enough, the record
of its ticks is `before ++ [last]`, where `last` returned `-1` and contains
exactly one `sqlite3_finalize` and one release of USED, while every tick in
`before` (the column setup, each busy answer, each delivered row, the terminal
answer) returned `1` and contains neither.  Over the whole run both counts are
one, the unit is off the queue and USED is clear.  With a null consumer
`before` is empty.  Moreover, among any number of fresh units resumed in any
order on a handle whose USED flag was clear, with any scripts, the events of a
unit that has returned `-1` hold exactly one finalize and one release, and
those of a unit still on the queue hold none. -/
theorem C5_finalize_and_release_once {σ : Type} (obj : NODE) (ctx : sqlite3_stmt)
    (pre : List (Int × List (Option String))) (t : Int × List (Option String))
    (f : function_t σ) (acc : σ) (fut : Option (σ → List sql_item_t)) (n : Nat)
    (hused : is_used obj = false) (hs : ctx.script = pre ++ [t])
    (hpre : ∀ a ∈ pre, a.1 = SQLITE_BUSY ∨ a.1 = SQLITE_ROW)
    (hb : t.1 ≠ SQLITE_BUSY) (hr : t.1 ≠ SQLITE_ROW) (hn : pre.length + 3 ≤ n) :
    ∃ before last,
      (run (List.replicate n 0) ⟨obj, [⟨{}, ctx, f, acc, fut, true⟩], []⟩).log = before ++ [last]
      ∧ last.ret = -1
      ∧ last.evs.count Ev.sqlite3_finalize = 1 ∧ last.evs.count Ev.release = 1
      ∧ (∀ k ∈ before, k.ret = 1 ∧ Ev.sqlite3_finalize ∉ k.evs ∧ Ev.release ∉ k.evs)
      ∧ before = (match f with
                  | none => []
                  | some _ => setupTick ctx.names :: pre.map (answerTick ctx.names)
                      ++ [{ who := 0, evs := [Ev.sqlite3_step], ret := 1 }])
      ∧ (allEvs (before ++ [last])).count Ev.sqlite3_finalize = 1
      ∧ (allEvs (before ++ [last])).count Ev.release = 1
      ∧ (∀ tk ∈ (run (List.replicate n 0) ⟨obj, [⟨{}, ctx, f, acc, fut, true⟩], []⟩).tasks,
          tk.live = false)
      ∧ is_used (run (List.replicate n 0) ⟨obj, [⟨{}, ctx, f, acc, fut, true⟩], []⟩).obj = false
      ∧ (∀ (s0 : Sys σ) (sched : List Nat), is_used s0.obj = false →
          (∀ u ∈ s0.tasks, u.live = true ∧ u.gen._state_ = 0) → s0.log = [] →
          ∀ (i : Nat) (u : Task σ), (run sched s0).tasks[i]? = some u →
            (u.live = false → tally (evsOf i (run sched s0).log) = (1, 1, 1))
            ∧ (u.live = true → (tally (evsOf i (run sched s0).log)).2 = (0, 0))) := by
  have hgen : ∀ (s0 : Sys σ) (sched : List Nat), is_used s0.obj = false →
      (∀ u ∈ s0.tasks, u.live = true ∧ u.gen._state_ = 0) → s0.log = [] →
      ∀ (i : Nat) (u : Task σ), (run sched s0).tasks[i]? = some u →
        (u.live = false → tally (evsOf i (run sched s0).log) = (1, 1, 1))
        ∧ (u.live = true → (tally (evsOf i (run sched s0).log)).2 = (0, 0)) := by
    intro s0 sched h1 h2 h3 i u hi
    have hinv := inv_run sched s0 (inv_fresh s0 h1 h2 h3)
    rw [hinv.events i u hi]
    refine ⟨fun hl => by simp [Task.due, hl], fun hl => ?_⟩
    by_cases hh : u.holding = true <;> simp [Task.due, hl, hh]
  cases f with
  | none =>
    obtain ⟨k, rfl⟩ : ∃ k, n = k + 1 := ⟨n - 1, by omega⟩
    have hq := futEvs_quiet fut acc
    rw [run_null obj ctx acc fut [] k hused]
    refine ⟨[], nullTick (futEvs fut acc), rfl, rfl, ?_, ?_, ?_, rfl, ?_, ?_, ?_,
      is_used_release _, hgen⟩
    · simp [nullTick, List.count_cons, hq.1]
    · simp [nullTick, List.count_cons, hq.2]
    · simp
    · simp [allEvs, nullTick, List.count_cons, hq.1]
    · simp [allEvs, nullTick, List.count_cons, hq.2]
    · simp
  | some fn =>
    obtain ⟨k, rfl⟩ : ∃ k, n = pre.length + 3 + k := ⟨n - (pre.length + 3), by omega⟩
    obtain ⟨g1, ctx1, hrun⟩ := run_complete obj ctx pre t fn acc fut [] k hused hs hpre hb hr
    have hq := futEvs_quiet fut (deliver fn ctx.names pre acc)
    have hbefore : ∀ k ∈ setupTick ctx.names :: pre.map (answerTick ctx.names)
        ++ [({ who := 0, evs := [Ev.sqlite3_step], ret := 1 } : Tick)],
        k.ret = 1 ∧ Ev.sqlite3_finalize ∉ k.evs ∧ Ev.release ∉ k.evs := by
      intro k hk
      simp only [List.cons_append, List.mem_cons, List.mem_append, List.mem_map,
        List.mem_singleton, List.not_mem_nil, or_false] at hk
      rcases hk with rfl | ⟨a, _, rfl⟩ | rfl
      · simp [setupTick]
      · exact answerTick_quiet ctx.names a
      · simp
    rw [hrun]
    refine ⟨setupTick ctx.names :: pre.map (answerTick ctx.names)
        ++ [{ who := 0, evs := [Ev.sqlite3_step], ret := 1 }],
      { who := 0,
        evs := [Ev.sqlite3_finalize, Ev.release] ++ futEvs fut (deliver fn ctx.names pre acc),
        ret := -1 }, ?_, rfl, ?_, ?_, hbefore, rfl, ?_, ?_, ?_, is_used_release _, hgen⟩
    · simp [closingTicks]
    · simp [List.count_cons, hq.1]
    · simp [List.count_cons, hq.2]
    · rw [allEvs_append, List.count_append,
        count_allEvs_zero _ _ (fun k hk => (hbefore k hk).2.1)]
      simp [allEvs, List.count_cons, hq.1]
    · rw [allEvs_append, List.count_append,
        count_allEvs_zero _ _ (fun k hk => (hbefore k hk).2.2)]
      simp [allEvs, List.count_cons, hq.2]
    · simp

/-- C5 at a concrete run: one row, then `SQLITE_DONE`, counting consumer. -/
theorem C5_finalize_and_release_once_witness :
    ∃ last,
      (run (List.replicate 4 0)
          ⟨demoHandle, [⟨{}, demoStmt, some (fun _ (c : Nat) => c + 1), 0, none, true⟩], []⟩).log.getLast?
        = some last
      ∧ last.ret = -1 ∧ last.evs.count Ev.sqlite3_finalize = 1 ∧ last.evs.count Ev.release = 1 := by
  obtain ⟨before, last, hlog, hret, hfin, hrel, _⟩ :=
    C5_finalize_and_release_once demoHandle demoStmt [(SQLITE_ROW, [some "1", some "a"])]
      (SQLITE_DONE, []) (some (fun _ (c : Nat) => c + 1)) 0 none 4 (by decide) rfl
      (by simp) (by decide) (by decide) (by decide)
  exact ⟨last, by rw [hlog]; simp, hret, hfin, hrel⟩

end nodepp
